import Mathlib

/-
Verification of the data acquisition + resampling + alignment pipeline
shared by the two front-ends of the stockchart repository
(src/main.py, the Qt variant, and src/main_st_good.py, the Streamlit
variant).

Modelling conventions:
* A calendar date is a natural number counting days since 1970-01-01
  (so day 0 is a Thursday and Sundays are the days congruent to 3 mod 7).
* A Close price is a rational number; a missing value (pandas NaN) is
  modelled as `none`.
* The upstream call `yf.Ticker(symbol).history(period="max")` is modelled
  as an `Except String (List (Nat x Rat))` parameter: `.error cause` is an
  exception raised inside the `try` block, `.ok rows` is the returned
  daily frame, given as its (date, Close) rows in index order.  Only the
  Close column is consumed by the program, so the other columns of the
  upstream rows are not carried.
* The pandas call `series.resample(rule).last()` is modelled by
  `resampleWith B`: it emits one row per calendar bucket between the
  bucket of the first index entry and the bucket of the last one, labels
  each row with the bucket end, and fills it with the last valid value of
  the bucket, `none` when the bucket holds no valid value.  The bucket
  end maps for the W / M / Q / Y rules are `weekEnd`, `monthEnd`,
  `quarterEnd`, `yearEnd`.
* UI message calls (QMessageBox.warning / QMessageBox.critical in the Qt
  variant, st.warning / st.error in the Streamlit variant) are modelled
  as an `Option` message value returned next to the frame, so that the
  side channel is visible in the model while the data interface stays
  the first component of the result.
-/

namespace StockChart

/-- One point of a date-indexed Close series: the date index and the
Close value, `none` standing for a missing (NaN) value. -/
abbrev Point : Type := Nat × Option ℚ

/-- The last valid (non-NaN) value of a list of points, as pandas
`last()` computes for one resampling bucket. -/
def lastValid (xs : List Point) : Option ℚ :=
  (xs.filterMap (fun p => p.2)).getLast?

/-- All bucket-end labels between `lo` and `hi` inclusive, where a
bucket end is a fixed point of the bucket-end map `B`.  This is the
regular label range pandas generates for a resampling rule. -/
def bucketLabels (B : Nat → Nat) (lo hi : Nat) : List Nat :=
  ((List.range (hi + 1 - lo)).map (fun k => lo + k)).filter (fun l => B l == l)

/-- The bucket rows emitted for the label range `[lo, hi]` over the
input `xs`: one row per bucket label, holding the last valid input
value of that bucket, `none` (NaN) when the bucket has none. -/
def resampleCore (B : Nat → Nat) (xs : List Point) (lo hi : Nat) : List Point :=
  (bucketLabels B lo hi).map
    (fun l => (l, lastValid (xs.filter (fun p => B p.1 == l))))

/-- Model of `series.resample(rule).last()` on a date-indexed series:
one output row per calendar bucket spanning the input index range (from
the bucket of the first index entry to the bucket of the last one),
labelled by the bucket end; the value of a bucket is the last valid
input value falling in it, and `none` (NaN) when the bucket holds no
valid value.  `B` maps a date to the end of its bucket. -/
def resampleWith (B : Nat → Nat) : List Point → List Point
  | [] => []
  | r :: rs => resampleCore B (r :: rs) (B r.1) (B ((rs.getLastD r).1))

/-- Bucket end for the pandas weekly rule `W` (weeks ending Sunday):
the first Sunday on or after `d`.  Day 0 (1970-01-01) is a Thursday, so
Sundays are the days congruent to 3 mod 7. -/
def weekEnd (d : Nat) : Nat := d + (10 - d % 7) % 7

/-- Gregorian leap-year test. -/
def isLeap (y : Nat) : Bool := y % 4 == 0 && (y % 100 != 0 || y % 400 == 0)

/-- Number of days of month `m` of year `y`. -/
def lastDayOfMonth (y m : Nat) : Nat :=
  if m == 2 then (if isLeap y then 29 else 28)
  else if m == 4 || m == 6 || m == 9 || m == 11 then 30
  else 31

/-- Proleptic Gregorian (year, month, day) of a day number counted from
1970-01-01 (the standard civil-from-days conversion). -/
def civilFromDays (z0 : Nat) : Nat × Nat × Nat :=
  let z := z0 + 719468
  let era := z / 146097
  let doe := z % 146097
  let yoe := (doe - doe / 1460 + doe / 36524 - doe / 146096) / 365
  let y := yoe + era * 400
  let doy := doe - (365 * yoe + yoe / 4 - yoe / 100)
  let mp := (5 * doy + 2) / 153
  let d := doy - (153 * mp + 2) / 5 + 1
  let m := if mp < 10 then mp + 3 else mp - 9
  (if m ≤ 2 then y + 1 else y, m, d)

/-- Day number (counted from 1970-01-01) of a proleptic Gregorian
(year, month, day) (the standard days-from-civil conversion). -/
def daysFromCivil (y m d : Nat) : Nat :=
  let y1 := if m ≤ 2 then y - 1 else y
  let era := y1 / 400
  let yoe := y1 % 400
  let mp := if 2 < m then m - 3 else m + 9
  let doy := (153 * mp + 2) / 5 + d - 1
  let doe := yoe * 365 + yoe / 4 - yoe / 100 + doy
  era * 146097 + doe - 719468

/-- Bucket end for the pandas monthly rule `M`: the last day of the
month containing `d`. -/
def monthEnd (d : Nat) : Nat :=
  let c := civilFromDays d
  daysFromCivil c.1 c.2.1 (lastDayOfMonth c.1 c.2.1)

/-- Bucket end for the pandas quarterly rule `Q`: the last day of the
calendar quarter (ending March, June, September or December)
containing `d`. -/
def quarterEnd (d : Nat) : Nat :=
  let c := civilFromDays d
  let qm := ((c.2.1 - 1) / 3) * 3 + 3
  daysFromCivil c.1 qm (lastDayOfMonth c.1 qm)

/-- Bucket end for the pandas yearly rule `Y`: December 31 of the year
containing `d`. -/
def yearEnd (d : Nat) : Nat :=
  let c := civilFromDays d
  daysFromCivil c.1 12 31

/-- The five interval choices offered by both front-ends. -/
inductive Granularity
  | Day
  | Week
  | Month
  | Quarter
  | Year
  deriving DecidableEq, Repr

/-- The bucket-end map used for each non-daily granularity; for `Day`
the program never resamples, the identity is recorded for totality. -/
def bucketOf : Granularity → Nat → Nat
  | .Day => fun d => d
  | .Week => weekEnd
  | .Month => monthEnd
  | .Quarter => quarterEnd
  | .Year => yearEnd

/-- User-facing messages emitted by the Streamlit variant
(src/main_st_good.py): the two st.warning calls and the st.error call
inside fetch_and_resample_data. -/
inductive StMsg
  | warnNoHistory (symbol : String)
  | warnNoDataInRange (symbol : String)
  | errorFetch (symbol : String) (cause : String)
  deriving DecidableEq, Repr

/-- User-facing messages emitted by the Qt variant (src/main.py): the
QMessageBox.warning call on an empty history and the
QMessageBox.critical call in the except branch.  The empty-after-filter
branch of that variant shows no message. -/
inductive QtMsg
  | warnNoData (symbol : String)
  | criticalError (symbol : String) (cause : String)
  deriving DecidableEq, Repr

/-- One row of the frame returned by the Streamlit variant: the date
index, the Close value, and the Symbol column the function adds before
returning. -/
structure SRow where
  date : Nat
  close : Option ℚ
  symbol : String
  deriving DecidableEq, Repr

/-- src/main_st_good.py lines 50-100, fetch_and_resample_data: fetch the
maximum daily history, return an empty frame (with a warning) when the
source has no rows; filter to dates at or after start_date, return an
empty frame (with a warning) when nothing remains; resample by the
chosen interval (no resampling for Day); tag every row with the symbol;
on any exception show an error carrying the cause and return an empty
frame.  The first component of the result is the returned frame, the
second the message shown on the UI side channel. -/
def MainSt.fetch_and_resample_data (symbol : String) (start_date : Nat)
    (interval_name : StockChart.Granularity)
    (history : Except String (List (Nat × ℚ))) :
    List SRow × Option StMsg :=
  match history with
  | .error cause => ([], some (.errorFetch symbol cause))
  | .ok df0 =>
    if df0.isEmpty then ([], some (.warnNoHistory symbol))
    else
      let df := df0.filter (fun r => decide (start_date ≤ r.1))
      if df.isEmpty then ([], some (.warnNoDataInRange symbol))
      else
        let daily : List Point := df.map (fun r => (r.1, some r.2))
        let res : List Point :=
          match interval_name with
          | .Day => daily
          | .Week => resampleWith weekEnd daily
          | .Month => resampleWith monthEnd daily
          | .Quarter => resampleWith quarterEnd daily
          | .Year => resampleWith yearEnd daily
        (res.map (fun p => { date := p.1, close := p.2, symbol := symbol }), none)

/-- src/main.py lines 90-130, fetch_and_resample_data of the Qt variant:
same pipeline, but no Symbol column is added, no message is shown when
the start-date filter leaves nothing, and the messages are dialog
boxes. -/
def MainQt.fetch_and_resample_data (symbol : String) (start_date : Nat)
    (interval : StockChart.Granularity)
    (history : Except String (List (Nat × ℚ))) :
    List Point × Option QtMsg :=
  match history with
  | .error cause => ([], some (.criticalError symbol cause))
  | .ok df0 =>
    if df0.isEmpty then ([], some (.warnNoData symbol))
    else
      let df := df0.filter (fun r => decide (start_date ≤ r.1))
      if df.isEmpty then ([], none)
      else
        let daily : List Point := df.map (fun r => (r.1, some r.2))
        let res : List Point :=
          match interval with
          | .Day => daily
          | .Week => resampleWith weekEnd daily
          | .Month => resampleWith monthEnd daily
          | .Quarter => resampleWith quarterEnd daily
          | .Year => resampleWith yearEnd daily
        (res, none)

/-- src/main_st_good.py lines 113-120: start from an empty frame and
concatenate each per-symbol frame that is not empty, in the fixed order
GOOGL, NVDA, TSLA. -/
def MainSt.combine (df_googl df_nvda df_tsla : List SRow) : List SRow :=
  let c0 : List SRow := []
  let c1 := if df_googl.isEmpty then c0 else c0 ++ df_googl
  let c2 := if df_nvda.isEmpty then c1 else c1 ++ df_nvda
  let c3 := if df_tsla.isEmpty then c2 else c2 ++ df_tsla
  c3

/-- src/main_st_good.py lines 113-124: the combined frame, then (when it
is not empty) filtered to the rows whose index lies between the start
and end date strings.  The index compared here is the index of the
already-resampled frames, i.e. the bucket labels. -/
def MainSt.combined_df (df_googl df_nvda df_tsla : List SRow)
    (start_d end_d : Nat) : List SRow :=
  let c := MainSt.combine df_googl df_nvda df_tsla
  if c.isEmpty then c
  else c.filter (fun r => decide (start_d ≤ r.date) && decide (r.date ≤ end_d))

/-- pandas series.rolling(window=w).mean(): entry i is the mean of the
window of the w entries ending at i; it is NaN (none) while fewer than w
entries are available (min_periods defaults to the window size) and
whenever the window holds a NaN. -/
def rollingMean (w : Nat) (xs : List (Option ℚ)) : List (Option ℚ) :=
  (List.range xs.length).map (fun i =>
    if i + 1 < w then none
    else if ((xs.take (i + 1)).drop (i + 1 - w)).all (fun o => o.isSome) then
      some ((((xs.take (i + 1)).drop (i + 1 - w)).filterMap
        (fun o => o)).sum / (w : ℚ))
    else none)

/-- src/main_st_good.py line 130 for one symbol: the MA200 column values
written for the rows of that symbol, i.e. the 200-window rolling mean of
that symbol's Close values in the combined frame. -/
def MainSt.MA200 (c : List SRow) (s : String) : List (Option ℚ) :=
  rollingMean 200 ((c.filter (fun r => r.symbol == s)).map (fun r => r.close))

/-- The symbols the moving-average loop of src/main_st_good.py lines
128-130 iterates over. -/
def MainSt.maSymbols : List String := ["GOOGL", "NVDA", "TSLA"]

/-- src/main_st_good.py lines 127-130: the MA200 columns are computed
only when the checkbox is on, the selected interval is Day, and the
combined frame is not empty; otherwise no MA200 column exists. -/
def MainSt.applyMA (show_ma : Bool) (g : StockChart.Granularity)
    (c : List SRow) : Option (List (String × List (Option ℚ))) :=
  if show_ma && g == .Day && !c.isEmpty then
    some (MainSt.maSymbols.map (fun s => (s, MainSt.MA200 c s)))
  else none

/-! Generic facts about the resampling model. -/

theorem mem_bucketLabels {B : Nat → Nat} {lo hi l : Nat} :
    l ∈ bucketLabels B lo hi ↔ lo ≤ l ∧ l ≤ hi ∧ B l = l := by
  unfold bucketLabels
  simp only [List.mem_filter, List.mem_map, List.mem_range, beq_iff_eq]
  constructor
  · rintro ⟨⟨k, hk, rfl⟩, hB⟩
    exact ⟨Nat.le_add_right _ _, by omega, hB⟩
  · rintro ⟨h1, h2, h3⟩
    exact ⟨⟨l - lo, by omega, by omega⟩, h3⟩

theorem bucketLabels_pairwise (B : Nat → Nat) (lo hi : Nat) :
    (bucketLabels B lo hi).Pairwise (· < ·) := by
  unfold bucketLabels
  refine List.Pairwise.filter _ ?_
  exact List.Pairwise.map _ (fun a b h => by omega) (List.pairwise_lt_range _)

theorem bucketLabels_nodup (B : Nat → Nat) (lo hi : Nat) :
    (bucketLabels B lo hi).Nodup :=
  (bucketLabels_pairwise B lo hi).imp Nat.ne_of_lt

theorem bucketLabels_eq_nil {B : Nat → Nat} {lo hi : Nat} (h : hi < lo) :
    bucketLabels B lo hi = [] := by
  unfold bucketLabels
  have h0 : hi + 1 - lo = 0 := by omega
  rw [h0]
  rfl

theorem bucketLabels_eq_cons {B : Nat → Nat} {lo hi : Nat} (hle : lo ≤ hi)
    (hlo : B lo = lo) : ∃ t, bucketLabels B lo hi = lo :: t := by
  have h1 : lo ∈ bucketLabels B lo hi :=
    mem_bucketLabels.2 ⟨Nat.le_refl _, hle, hlo⟩
  match hL : bucketLabels B lo hi with
  | [] => rw [hL] at h1; cases h1
  | a :: t =>
    refine ⟨t, ?_⟩
    rw [hL] at h1
    have ha : lo ≤ a := by
      have hmem : a ∈ bucketLabels B lo hi := by
        rw [hL]; exact List.mem_cons_self a t
      exact (mem_bucketLabels.1 hmem).1
    rcases List.mem_cons.1 h1 with h | h
    · rw [h]
    · exfalso
      have hp := bucketLabels_pairwise B lo hi
      rw [hL] at hp
      have := (List.pairwise_cons.1 hp).1 lo h
      omega

theorem bucketLabels_getLast? {B : Nat → Nat} {lo hi : Nat} (hle : lo ≤ hi)
    (hhi : B hi = hi) : (bucketLabels B lo hi).getLast? = some hi := by
  unfold bucketLabels
  obtain ⟨n, hn⟩ : ∃ n, hi + 1 - lo = n + 1 := ⟨hi - lo, by omega⟩
  have hlon : lo + n = hi := by omega
  rw [hn, List.range_succ, List.map_append, List.filter_append]
  simp only [List.map_cons, List.map_nil, List.filter_cons, List.filter_nil, hlon]
  rw [show (B hi == hi) = true by simp [hhi]]
  simp [List.getLast?_concat]

theorem lastValid_nil : lastValid [] = none := rfl

theorem lastValid_pair (l : Nat) (v : Option ℚ) : lastValid [(l, v)] = v := by
  cases v <;> rfl

theorem lastValid_eq_some {xs : List Point} {q : ℚ} (h : lastValid xs = some q) :
    ∃ p, p ∈ xs ∧ p.2 = some q := by
  unfold lastValid at h
  have hq := List.mem_of_getLast?_eq_some h
  rw [List.mem_filterMap] at hq
  obtain ⟨p, hp, hpq⟩ := hq
  exact ⟨p, hp, hpq⟩

theorem getLastD_map {α β : Type _} (f : α → β) (l : List α) (a : α) :
    (l.map f).getLastD (f a) = f (l.getLastD a) := by
  rw [List.getLastD_eq_getLast?, List.getLastD_eq_getLast?, List.getLast?_map]
  cases l.getLast? <;> rfl

theorem filter_beq_of_nodup {l : Nat} {L : List Nat} (hnd : L.Nodup)
    (hl : l ∈ L) : L.filter (fun x => x == l) = [l] := by
  induction L with
  | nil => cases hl
  | cons a t ih =>
    rw [List.filter_cons]
    rcases List.mem_cons.1 hl with rfl | hlt
    · rw [show (l == l) = true by simp]
      have ht : t.filter (fun x => x == l) = [] := by
        rw [List.filter_eq_nil_iff]
        intro x hx
        simp only [beq_iff_eq]
        intro hxa
        exact (List.nodup_cons.1 hnd).1 (hxa ▸ hx)
      simp [ht]
    · have hne : (a == l) = false := by
        simp only [beq_eq_false_iff_ne, ne_eq]
        rintro rfl
        exact (List.nodup_cons.1 hnd).1 hlt
      rw [hne]
      simpa using ih (List.nodup_cons.1 hnd).2 hlt

theorem resampleWith_cons (B : Nat → Nat) (r : Point) (rs : List Point) :
    resampleWith B (r :: rs) =
      resampleCore B (r :: rs) (B r.1) (B ((rs.getLastD r).1)) := rfl

theorem resampleCore_map_fst (B : Nat → Nat) (xs : List Point) (lo hi : Nat) :
    (resampleCore B xs lo hi).map Prod.fst = bucketLabels B lo hi := by
  unfold resampleCore
  rw [List.map_map]
  exact List.map_id _

theorem mem_resampleCore {B : Nat → Nat} {xs : List Point} {lo hi : Nat}
    {l : Nat} {v : Option ℚ} (h : (l, v) ∈ resampleCore B xs lo hi) :
    l ∈ bucketLabels B lo hi ∧
      v = lastValid (xs.filter (fun p => B p.1 == l)) := by
  unfold resampleCore at h
  rw [List.mem_map] at h
  obtain ⟨l', hl', heq⟩ := h
  injection heq with h1 h2
  subst h1
  exact ⟨hl', h2.symm⟩

theorem resampleCore_map_self {B : Nat → Nat} {lo hi : Nat} (f : Nat → Point)
    (hf : ∀ l, (f l).1 = l) :
    resampleCore B ((bucketLabels B lo hi).map f) lo hi =
      (bucketLabels B lo hi).map f := by
  unfold resampleCore
  refine List.map_congr_left ?_
  intro l hlmem
  have hfilter :
      ((bucketLabels B lo hi).map f).filter (fun p => B p.1 == l) = [f l] := by
    rw [List.filter_map]
    have hcong :
        (bucketLabels B lo hi).filter ((fun p => B p.1 == l) ∘ f) =
          (bucketLabels B lo hi).filter (fun x => x == l) := by
      refine List.filter_congr ?_
      intro x hx
      have hx2 : B x = x := (mem_bucketLabels.1 hx).2.2
      simp [Function.comp, hf x, hx2]
    rw [hcong, filter_beq_of_nodup (bucketLabels_nodup B lo hi) hlmem]
    rfl
  rw [hfilter]
  have h2 : lastValid [f l] = (f l).2 := by
    have hfl : f l = (l, (f l).2) := by
      conv_lhs => rw [show f l = ((f l).1, (f l).2) from rfl, hf l]
    rw [hfl, lastValid_pair]
  rw [h2]
  conv_rhs => rw [show f l = ((f l).1, (f l).2) from rfl, hf l]

theorem resampleWith_idem {B : Nat → Nat} (hB : ∀ d, B (B d) = B d)
    (xs : List Point) :
    resampleWith B (resampleWith B xs) = resampleWith B xs := by
  cases xs with
  | nil => rfl
  | cons r rs =>
    rw [resampleWith_cons]
    have hBlo : B (B r.1) = B r.1 := hB r.1
    have hBhi : B (B ((rs.getLastD r).1)) = B ((rs.getLastD r).1) := hB _
    set lo := B r.1 with hlodef
    set hi := B ((rs.getLastD r).1) with hhidef
    rcases Nat.lt_or_ge hi lo with hlt | hle
    · rw [resampleCore, bucketLabels_eq_nil hlt]
      rfl
    · obtain ⟨t, ht⟩ := bucketLabels_eq_cons hle hBlo
      set f : Nat → Point :=
        (fun l => (l, lastValid ((r :: rs).filter (fun p => B p.1 == l))))
        with hfdef
      have houtcons : resampleCore B (r :: rs) lo hi = f lo :: t.map f := by
        rw [resampleCore, ht, List.map_cons]
      rw [houtcons, resampleWith_cons]
      have hfst : (f lo).1 = lo := rfl
      have hlastt : t.getLastD lo = hi := by
        have h1 : (bucketLabels B lo hi).getLast? = some hi :=
          bucketLabels_getLast? hle hBhi
        rw [ht, List.getLast?_cons] at h1
        rw [← List.getLastD_eq_getLast?] at h1
        exact Option.some.inj h1
      have hlast : ((t.map f).getLastD (f lo)) = f hi := by
        rw [getLastD_map, hlastt]
      rw [hlast, hfst, hBlo, hBhi]
      have hrhs : f lo :: List.map f t = (bucketLabels B lo hi).map f := by
        rw [ht, List.map_cons]
      rw [hrhs, resampleCore_map_self f (fun l => rfl)]

/-! Facts about the two fetch functions and the combination step. -/

theorem resampleWith_nil (B : Nat → Nat) : resampleWith B [] = [] := rfl

/-- Every row of the frame returned by the Streamlit fetch carries the
symbol it was fetched for. -/
theorem MainSt.fetch_symbol_tag {symbol : String} {start_date : Nat}
    {g : StockChart.Granularity} {h : Except String (List (Nat × ℚ))}
    {r : SRow}
    (hr : r ∈ (MainSt.fetch_and_resample_data symbol start_date g h).1) :
    r.symbol = symbol := by
  unfold MainSt.fetch_and_resample_data at hr
  match h with
  | .error cause => simp at hr
  | .ok df0 =>
    by_cases h0 : df0.isEmpty
    · simp [h0] at hr
    · simp only [h0, Bool.false_eq_true, if_false] at hr
      by_cases h1 : (df0.filter (fun r => decide (start_date ≤ r.1))).isEmpty
      · simp [h1] at hr
      · simp only [h1, Bool.false_eq_true, if_false] at hr
        rw [List.mem_map] at hr
        obtain ⟨p, hp, rfl⟩ := hr
        rfl

/-- The combination step of the Streamlit variant concatenates the three
per-symbol frames in the fixed order GOOGL, NVDA, TSLA. -/
theorem MainSt.combine_eq_append (dfg dfn dft : List SRow) :
    MainSt.combine dfg dfn dft = dfg ++ dfn ++ dft := by
  unfold MainSt.combine
  have hc : ∀ (c df : List SRow), (if df.isEmpty then c else c ++ df) = c ++ df := by
    intro c df
    by_cases h : df.isEmpty
    · rw [if_pos h, List.isEmpty_iff.1 h, List.append_nil]
    · rw [if_neg h]
  simp only [hc]
  simp

/-- For every granularity other than Day, the Streamlit fetch result is
the resampling (with the bucket map of that granularity) of the
start-date-filtered daily series, tagged with the symbol. -/
theorem MainSt.fetch_resample_eq (symbol : String) (start_date : Nat)
    (g : StockChart.Granularity) (hg : g ≠ .Day) (rows : List (Nat × ℚ)) :
    (MainSt.fetch_and_resample_data symbol start_date g (.ok rows)).1 =
      (resampleWith (bucketOf g)
        ((rows.filter (fun r => decide (start_date ≤ r.1))).map
          (fun r => (r.1, some r.2)))).map
        (fun p => { date := p.1, close := p.2, symbol := symbol }) := by
  cases g
  case Day => exact absurd rfl hg
  all_goals (
    cases rows with
    | nil => simp [MainSt.fetch_and_resample_data, resampleWith_nil]
    | cons r rs =>
      unfold MainSt.fetch_and_resample_data
      simp only [List.isEmpty_cons, Bool.false_eq_true, if_false]
      by_cases h1 : ((r :: rs).filter (fun x => decide (start_date ≤ x.1))).isEmpty
      · rw [if_pos h1, List.isEmpty_iff.1 h1]
        rfl
      · rw [if_neg h1]
        rfl)

/-- The ordering the spec asserts for the combined output: ascending
date, ties broken by the symbol tag. -/
def dateSymLE (a b : SRow) : Prop :=
  a.date < b.date ∨ (a.date = b.date ∧ a.symbol ≤ b.symbol)

instance (a b : SRow) : Decidable (dateSymLE a b) := by
  unfold dateSymLE
  infer_instance

/-- C7: resampling is idempotent on already-bucketed input — applying
the weekly resampling step to the result of weekly resampling yields the
same series (proved for every input series, in particular for every
already-weekly one). -/
theorem C7_weekly_resampling_idempotent (xs : List Point) :
    resampleWith weekEnd (resampleWith weekEnd xs) = resampleWith weekEnd xs := by
  refine resampleWith_idem ?_ xs
  intro d
  unfold weekEnd
  omega

/-- C8: when the granularity is Day, fetch_and_resample_data returns the
start-date-filtered daily series unchanged — the same dates and Close
prices as the filtered upstream history, with no resampling applied — in
both front-end variants. -/
theorem C8_day_returns_filtered_series (symbol : String) (start_date : Nat)
    (rows : List (Nat × ℚ)) :
    (MainSt.fetch_and_resample_data symbol start_date .Day (.ok rows)).1 =
      (rows.filter (fun r => decide (start_date ≤ r.1))).map
        (fun r => { date := r.1, close := some r.2, symbol := symbol }) ∧
    (MainQt.fetch_and_resample_data symbol start_date .Day (.ok rows)).1 =
      (rows.filter (fun r => decide (start_date ≤ r.1))).map
        (fun r => (r.1, some r.2)) := by
  constructor
  · unfold MainSt.fetch_and_resample_data
    cases rows with
    | nil => simp
    | cons r rs =>
      simp only [List.isEmpty_cons, Bool.false_eq_true, if_false]
      by_cases h1 : ((r :: rs).filter (fun x => decide (start_date ≤ x.1))).isEmpty
      · rw [if_pos h1, List.isEmpty_iff.1 h1]
        rfl
      · rw [if_neg h1]
        rw [List.map_map]
        rfl
  · unfold MainQt.fetch_and_resample_data
    cases rows with
    | nil => simp
    | cons r rs =>
      simp only [List.isEmpty_cons, Bool.false_eq_true, if_false]
      by_cases h1 : ((r :: rs).filter (fun x => decide (start_date ≤ x.1))).isEmpty
      · rw [if_pos h1, List.isEmpty_iff.1 h1]
        rfl
      · rw [if_neg h1]

/-- C10: fetch_and_resample_data is deterministic — two calls of either
variant with the same symbol, start date, granularity and the same
upstream row sequence return equal results. -/
theorem C10_deterministic (symbol : String) (start_date : Nat)
    (g : StockChart.Granularity) (h1 h2 : Except String (List (Nat × ℚ)))
    (heq : h1 = h2) :
    MainSt.fetch_and_resample_data symbol start_date g h1 =
      MainSt.fetch_and_resample_data symbol start_date g h2 ∧
    MainQt.fetch_and_resample_data symbol start_date g h1 =
      MainQt.fetch_and_resample_data symbol start_date g h2 := by
  subst heq
  exact ⟨rfl, rfl⟩

/-- Witness for C10 at a concrete input. -/
theorem C10_witness :
    ((.ok [((0 : Nat), (1 : ℚ))] : Except String (List (Nat × ℚ))) =
      .ok [(0, 1)]) ∧
    (MainSt.fetch_and_resample_data "GOOGL" 0 .Day (.ok [(0, 1)]) =
      MainSt.fetch_and_resample_data "GOOGL" 0 .Day (.ok [(0, 1)]) ∧
    MainQt.fetch_and_resample_data "GOOGL" 0 .Day (.ok [(0, 1)]) =
      MainQt.fetch_and_resample_data "GOOGL" 0 .Day (.ok [(0, 1)])) :=
  ⟨rfl, C10_deterministic "GOOGL" 0 .Day (.ok [(0, 1)]) (.ok [(0, 1)]) rfl⟩

/-- C3: an exception raised by the upstream source is caught at the
fetch boundary of both variants; the function returns an empty frame
(no exception escapes to the caller), the reported message carries the
underlying cause, and that message kind is distinct from both no-data
message kinds. -/
theorem C3_fetch_error_caught (symbol : String) (start_date : Nat)
    (g : StockChart.Granularity) (cause : String) :
    MainSt.fetch_and_resample_data symbol start_date g (.error cause) =
      ([], some (.errorFetch symbol cause)) ∧
    MainQt.fetch_and_resample_data symbol start_date g (.error cause) =
      ([], some (.criticalError symbol cause)) ∧
    (∀ s2, StMsg.errorFetch symbol cause ≠ StMsg.warnNoHistory s2) ∧
    (∀ s2, StMsg.errorFetch symbol cause ≠ StMsg.warnNoDataInRange s2) ∧
    (∀ s2, QtMsg.criticalError symbol cause ≠ QtMsg.warnNoData s2) := by
  refine ⟨rfl, rfl, ?_, ?_, ?_⟩ <;> intro s2 <;> simp

/-- C9: on each of the three failure paths — upstream exception,
upstream returns no rows, no rows survive the start-date filter — both
variants return an empty frame (rather than raising), and the frames
returned on the three paths are all equal. -/
theorem C9_failure_paths_empty (symbol : String) (start_date : Nat)
    (g : StockChart.Granularity) (cause : String) (rows : List (Nat × ℚ))
    (hfil : rows.filter (fun r => decide (start_date ≤ r.1)) = []) :
    (MainSt.fetch_and_resample_data symbol start_date g (.error cause)).1 = [] ∧
    (MainSt.fetch_and_resample_data symbol start_date g (.ok [])).1 = [] ∧
    (MainSt.fetch_and_resample_data symbol start_date g (.ok rows)).1 = [] ∧
    (MainQt.fetch_and_resample_data symbol start_date g (.error cause)).1 = [] ∧
    (MainQt.fetch_and_resample_data symbol start_date g (.ok [])).1 = [] ∧
    (MainQt.fetch_and_resample_data symbol start_date g (.ok rows)).1 = [] := by
  refine ⟨rfl, rfl, ?_, rfl, rfl, ?_⟩
  · unfold MainSt.fetch_and_resample_data
    by_cases h0 : rows.isEmpty
    · simp [h0]
    · simp only [h0, Bool.false_eq_true, if_false]
      rw [if_pos (by rw [hfil]; rfl)]
  · unfold MainQt.fetch_and_resample_data
    by_cases h0 : rows.isEmpty
    · simp [h0]
    · simp only [h0, Bool.false_eq_true, if_false]
      rw [if_pos (by rw [hfil]; rfl)]

/-- Witness for C9 at a concrete input: one upstream row on day 0,
start day 1, so the filter leaves nothing. -/
theorem C9_witness :
    ([((0 : Nat), (5 : ℚ))].filter (fun r => decide (1 ≤ r.1)) = []) ∧
    ((MainSt.fetch_and_resample_data "GOOGL" 1 .Day (.error "boom")).1 = [] ∧
    (MainSt.fetch_and_resample_data "GOOGL" 1 .Day (.ok [])).1 = [] ∧
    (MainSt.fetch_and_resample_data "GOOGL" 1 .Day (.ok [(0, 5)])).1 = [] ∧
    (MainQt.fetch_and_resample_data "GOOGL" 1 .Day (.error "boom")).1 = [] ∧
    (MainQt.fetch_and_resample_data "GOOGL" 1 .Day (.ok [])).1 = [] ∧
    (MainQt.fetch_and_resample_data "GOOGL" 1 .Day (.ok [(0, 5)])).1 = []) :=
  ⟨by decide,
   C9_failure_paths_empty "GOOGL" 1 .Day "boom" [(0, 5)] (by decide)⟩

/-- C2 counterexample: with start day 1, an upstream result of zero rows
(symbol unknown) and an upstream result [(0, 5)] whose rows all predate
the start (no data in range) produce identical return values at the
fetch interface of both variants, and the model raises nothing on either
path, so the caller cannot tell the two conditions apart from what the
fetch interface yields — refuting the claimed distinguishability. -/
theorem C2_counterexample :
    (MainSt.fetch_and_resample_data "GOOGL" 1 .Day (.ok [])).1 =
      (MainSt.fetch_and_resample_data "GOOGL" 1 .Day (.ok [(0, 5)])).1 ∧
    (MainQt.fetch_and_resample_data "GOOGL" 1 .Day (.ok [])).1 =
      (MainQt.fetch_and_resample_data "GOOGL" 1 .Day (.ok [(0, 5)])).1 :=
  ⟨rfl, rfl⟩

/-- C2 amended: the two no-data conditions yield the same empty frame at
the fetch interface (no distinct return values, no raised error kinds);
they are distinguished only on the UI side channel — by two different
warning messages in the Streamlit variant, and in the Qt variant by a
dialog shown for the no-rows case and no message at all for the
empty-after-filter case. -/
theorem C2_amended_same_return (symbol : String) (start_date : Nat)
    (g : StockChart.Granularity) (rows : List (Nat × ℚ)) (hne : rows ≠ [])
    (hfil : rows.filter (fun r => decide (start_date ≤ r.1)) = []) :
    (MainSt.fetch_and_resample_data symbol start_date g (.ok [])).1 =
      (MainSt.fetch_and_resample_data symbol start_date g (.ok rows)).1 ∧
    (MainSt.fetch_and_resample_data symbol start_date g (.ok [])).2 =
      some (.warnNoHistory symbol) ∧
    (MainSt.fetch_and_resample_data symbol start_date g (.ok rows)).2 =
      some (.warnNoDataInRange symbol) ∧
    StMsg.warnNoHistory symbol ≠ StMsg.warnNoDataInRange symbol ∧
    (MainQt.fetch_and_resample_data symbol start_date g (.ok [])).1 =
      (MainQt.fetch_and_resample_data symbol start_date g (.ok rows)).1 ∧
    (MainQt.fetch_and_resample_data symbol start_date g (.ok [])).2 =
      some (.warnNoData symbol) ∧
    (MainQt.fetch_and_resample_data symbol start_date g (.ok rows)).2 =
      none := by
  have hSt : MainSt.fetch_and_resample_data symbol start_date g (.ok rows) =
      ([], some (.warnNoDataInRange symbol)) := by
    unfold MainSt.fetch_and_resample_data
    have h0 : rows.isEmpty = false := by
      rw [List.isEmpty_eq_false]
      exact hne
    simp only [h0, Bool.false_eq_true, if_false]
    rw [if_pos (by rw [hfil]; rfl)]
  have hQt : MainQt.fetch_and_resample_data symbol start_date g (.ok rows) =
      ([], none) := by
    unfold MainQt.fetch_and_resample_data
    have h0 : rows.isEmpty = false := by
      rw [List.isEmpty_eq_false]
      exact hne
    simp only [h0, Bool.false_eq_true, if_false]
    rw [if_pos (by rw [hfil]; rfl)]
  refine ⟨?_, rfl, ?_, by simp, ?_, rfl, ?_⟩
  · rw [hSt]; rfl
  · rw [hSt]
  · rw [hQt]; rfl
  · rw [hQt]

/-- Witness for C2 amended at a concrete input. -/
theorem C2_witness :
    (([((0 : Nat), (5 : ℚ))] : List (Nat × ℚ)) ≠ [] ∧
     [((0 : Nat), (5 : ℚ))].filter (fun r => decide (1 ≤ r.1)) = []) ∧
    ((MainSt.fetch_and_resample_data "GOOGL" 1 .Day (.ok [])).1 =
      (MainSt.fetch_and_resample_data "GOOGL" 1 .Day (.ok [(0, 5)])).1 ∧
    (MainSt.fetch_and_resample_data "GOOGL" 1 .Day (.ok [])).2 =
      some (.warnNoHistory "GOOGL") ∧
    (MainSt.fetch_and_resample_data "GOOGL" 1 .Day (.ok [(0, 5)])).2 =
      some (.warnNoDataInRange "GOOGL") ∧
    StMsg.warnNoHistory "GOOGL" ≠ StMsg.warnNoDataInRange "GOOGL" ∧
    (MainQt.fetch_and_resample_data "GOOGL" 1 .Day (.ok [])).1 =
      (MainQt.fetch_and_resample_data "GOOGL" 1 .Day (.ok [(0, 5)])).1 ∧
    (MainQt.fetch_and_resample_data "GOOGL" 1 .Day (.ok [])).2 =
      some (.warnNoData "GOOGL") ∧
    (MainQt.fetch_and_resample_data "GOOGL" 1 .Day (.ok [(0, 5)])).2 =
      none) :=
  ⟨⟨by decide, by decide⟩,
   C2_amended_same_return "GOOGL" 1 .Day [(0, 5)] (by decide) (by decide)⟩

/-- C5 counterexample: combining a two-point GOOGL series (days 3 and
10) with a one-point NVDA series (day 5) yields the GOOGL block followed
by the NVDA block — the day-10 GOOGL point precedes the day-5 NVDA
point, so the combined output is not sorted by date then symbol. -/
theorem C5_counterexample :
    MainSt.combine
        [{ date := 3, close := some 1, symbol := "GOOGL" },
         { date := 10, close := some 2, symbol := "GOOGL" }]
        [{ date := 5, close := some 4, symbol := "NVDA" }] [] =
      [{ date := 3, close := some 1, symbol := "GOOGL" },
       { date := 10, close := some 2, symbol := "GOOGL" },
       { date := 5, close := some 4, symbol := "NVDA" }] ∧
    ¬ List.Pairwise dateSymLE
      (MainSt.combine
        [{ date := 3, close := some 1, symbol := "GOOGL" },
         { date := 10, close := some 2, symbol := "GOOGL" }]
        [{ date := 5, close := some 4, symbol := "NVDA" }] []) := by
  constructor
  · rfl
  · intro hp
    rw [MainSt.combine_eq_append] at hp
    have h2 := (List.pairwise_cons.1 (List.pairwise_cons.1 hp).2).1
      { date := 5, close := some 4, symbol := "NVDA" } (by simp)
    rcases h2 with h | ⟨h, _⟩ <;> exact absurd h (by decide)

/-- C5 amended: the combination step produces exactly the union
(concatenation) of the input series, each point tagged with its
originating symbol and the point count preserved — 200 GOOGL points and
180 NVDA points give exactly 380 tagged points — but in symbol-block
order (GOOGL, then NVDA, then TSLA), not globally sorted by date then
symbol, and with no cross-symbol interpolation (no point is created that
was not in some input series). -/
theorem C5_amended_concat_union (dfg dfn dft : List SRow) :
    MainSt.combine dfg dfn dft = dfg ++ dfn ++ dft ∧
    (MainSt.combine dfg dfn dft).length =
      dfg.length + dfn.length + dft.length ∧
    (∀ r, r ∈ MainSt.combine dfg dfn dft →
      r ∈ dfg ∨ r ∈ dfn ∨ r ∈ dft) ∧
    (∀ symbol start_date g h r,
      r ∈ (MainSt.fetch_and_resample_data symbol start_date g h).1 →
      r.symbol = symbol) := by
  refine ⟨MainSt.combine_eq_append dfg dfn dft, ?_, ?_, ?_⟩
  · rw [MainSt.combine_eq_append]
    simp [List.length_append]
    omega
  · intro r hr
    rw [MainSt.combine_eq_append] at hr
    simp only [List.mem_append] at hr
    tauto
  · intro symbol start_date g h r hr
    exact MainSt.fetch_symbol_tag hr

/-- The value of every output point of the resampling is the last valid
input value of its bucket. -/
theorem mem_resampleWith {B : Nat → Nat} {xs : List Point} {p : Point}
    (hp : p ∈ resampleWith B xs) :
    p.2 = lastValid (xs.filter (fun q => B q.1 == p.1)) := by
  cases xs with
  | nil => simp [resampleWith] at hp
  | cons r rs =>
    rw [resampleWith_cons] at hp
    obtain ⟨l, v⟩ := p
    exact (mem_resampleCore hp).2

/-- On a daily list with no missing values, the last valid value of a
bucket is the Close of its chronologically last row. -/
theorem lastValid_map_close (L : List (Nat × ℚ)) :
    lastValid (L.map (fun r => (r.1, some r.2))) =
      (L.getLast?).map (fun p => p.2) := by
  unfold lastValid
  rw [List.filterMap_map]
  rw [show ((fun p : Point => p.2) ∘ (fun r : Nat × ℚ => (r.1, some r.2))) =
    (some ∘ (fun r : Nat × ℚ => r.2)) from rfl]
  rw [List.filterMap_eq_map]
  rw [List.getLast?_map]

/-- C1 counterexample: a weekly fetch of the two-row history (day 3,
close 1), (day 17, close 2) — two Sundays two weeks apart — returns
three points: the week bucket ending day 10 contains no input row, yet
it contributes an output point (with a NaN close), refuting the claim
that an empty bucket contributes no output point. -/
theorem C1_counterexample :
    (MainSt.fetch_and_resample_data "GOOGL" 0 .Week (.ok [(3, 1), (17, 2)])).1 =
      [{ date := 3, close := some 1, symbol := "GOOGL" },
       { date := 10, close := none, symbol := "GOOGL" },
       { date := 17, close := some 2, symbol := "GOOGL" }] ∧
    (∀ p ∈ [((3 : Nat), (1 : ℚ)), (17, 2)], weekEnd p.1 ≠ 10) := by
  constructor
  · rfl
  · decide

/-- C1 amended: for every granularity other than Day, the series
returned by fetch_and_resample_data has strictly increasing dates (so at
most one point per calendar bucket, in ascending order); the Close of
every point is the Close of the chronologically last filtered input row
of that point's bucket (so no interpolated or forward-filled value
appears, and a point whose bucket has no row carries an absent / NaN
Close); the dates of the output are exactly the bucket-end labels from
the bucket of the first filtered row to the bucket of the last one; and
hence every bucket inside that covered range that contains no filtered
input row still contributes exactly one output point, carrying an
absent value. -/
theorem C1_amended_bucket_shape (symbol : String) (start_date : Nat)
    (g : StockChart.Granularity) (rows : List (Nat × ℚ))
    (hg : g ≠ .Day) :
    (((MainSt.fetch_and_resample_data symbol start_date g (.ok rows)).1).map
        (fun r => r.date)).Pairwise (· < ·) ∧
    (∀ r, r ∈ (MainSt.fetch_and_resample_data symbol start_date g (.ok rows)).1 →
      (r.close = (((rows.filter (fun p => decide (start_date ≤ p.1))).filter
          (fun p => bucketOf g p.1 == r.date)).getLast?).map (fun p => p.2) ∧
      (∀ q, r.close = some q →
        ∃ p, p ∈ rows ∧ start_date ≤ p.1 ∧ bucketOf g p.1 = r.date ∧ p.2 = q) ∧
      ((∀ p, p ∈ rows → start_date ≤ p.1 → bucketOf g p.1 ≠ r.date) →
        r.close = none))) ∧
    (∀ hd tl, rows.filter (fun p => decide (start_date ≤ p.1)) = hd :: tl →
      (((MainSt.fetch_and_resample_data symbol start_date g (.ok rows)).1).map
        (fun r => r.date)) =
      bucketLabels (bucketOf g) (bucketOf g hd.1)
        (bucketOf g ((tl.getLastD hd).1))) ∧
    (∀ hd tl, rows.filter (fun p => decide (start_date ≤ p.1)) = hd :: tl →
      ∀ l, bucketOf g l = l → bucketOf g hd.1 ≤ l →
        l ≤ bucketOf g ((tl.getLastD hd).1) →
        (∀ p, p ∈ rows → start_date ≤ p.1 → bucketOf g p.1 ≠ l) →
        ({ date := l, close := none, symbol := symbol } : SRow) ∈
          (MainSt.fetch_and_resample_data symbol start_date g (.ok rows)).1) := by
  have heq := MainSt.fetch_resample_eq symbol start_date g hg rows
  have h1 : (((MainSt.fetch_and_resample_data symbol start_date g
      (.ok rows)).1).map (fun r => r.date)).Pairwise (· < ·) := by
    rw [heq, List.map_map]
    rw [show ((fun r : SRow => r.date) ∘ (fun p : Point =>
        ({ date := p.1, close := p.2, symbol := symbol } : SRow))) =
        Prod.fst from rfl]
    cases hd : (rows.filter (fun r => decide (start_date ≤ r.1))).map
        (fun r => (r.1, some r.2)) with
    | nil => simp [resampleWith_nil]
    | cons r0 rs0 =>
      rw [resampleWith_cons, resampleCore_map_fst]
      exact bucketLabels_pairwise _ _ _
  have h2 : ∀ r,
      r ∈ (MainSt.fetch_and_resample_data symbol start_date g (.ok rows)).1 →
      r.close = (((rows.filter (fun p => decide (start_date ≤ p.1))).filter
        (fun p => bucketOf g p.1 == r.date)).getLast?).map (fun p => p.2) := by
    intro r hr
    rw [heq, List.mem_map] at hr
    obtain ⟨p, hp, rfl⟩ := hr
    obtain ⟨l, v⟩ := p
    have hval := mem_resampleWith hp
    dsimp only at hval ⊢
    rw [hval]
    rw [show (((rows.filter (fun p => decide (start_date ≤ p.1))).map
        (fun r => (r.1, some r.2))).filter (fun q => bucketOf g q.1 == l)) =
        (((rows.filter (fun p => decide (start_date ≤ p.1))).filter
          (fun p => bucketOf g p.1 == l)).map (fun r => (r.1, some r.2)))
      from List.filter_map _ _]
    exact lastValid_map_close _
  have h3 : ∀ r,
      r ∈ (MainSt.fetch_and_resample_data symbol start_date g (.ok rows)).1 →
      ∀ q, r.close = some q →
      ∃ p, p ∈ rows ∧ start_date ≤ p.1 ∧ bucketOf g p.1 = r.date ∧ p.2 = q := by
    intro r hr q hq
    rw [h2 r hr] at hq
    rcases hgl : ((rows.filter (fun p => decide (start_date ≤ p.1))).filter
        (fun p => bucketOf g p.1 == r.date)).getLast? with _ | pp
    · rw [hgl] at hq
      cases hq
    · rw [hgl] at hq
      have hq2 : pp.2 = q := by simpa using hq
      have hppmem := List.mem_of_getLast?_eq_some hgl
      rw [List.mem_filter] at hppmem
      obtain ⟨hpdf, hpbeq⟩ := hppmem
      rw [List.mem_filter] at hpdf
      exact ⟨pp, hpdf.1, of_decide_eq_true hpdf.2,
        by rwa [beq_iff_eq] at hpbeq, hq2⟩
  have h4 : ∀ r,
      r ∈ (MainSt.fetch_and_resample_data symbol start_date g (.ok rows)).1 →
      (∀ p, p ∈ rows → start_date ≤ p.1 → bucketOf g p.1 ≠ r.date) →
      r.close = none := by
    intro r hr hempty
    rw [h2 r hr]
    have hnil : (rows.filter (fun p => decide (start_date ≤ p.1))).filter
        (fun p => bucketOf g p.1 == r.date) = [] := by
      rw [List.filter_eq_nil_iff]
      intro p hpdf
      rw [List.mem_filter] at hpdf
      simp only [beq_iff_eq]
      exact hempty p hpdf.1 (of_decide_eq_true hpdf.2)
    rw [hnil]
    rfl
  have h5 : ∀ hd tl,
      rows.filter (fun p => decide (start_date ≤ p.1)) = hd :: tl →
      (((MainSt.fetch_and_resample_data symbol start_date g (.ok rows)).1).map
        (fun r => r.date)) =
      bucketLabels (bucketOf g) (bucketOf g hd.1)
        (bucketOf g ((tl.getLastD hd).1)) := by
    intro hd tl hdf
    rw [heq, List.map_map]
    rw [show ((fun r : SRow => r.date) ∘ (fun p : Point =>
        ({ date := p.1, close := p.2, symbol := symbol } : SRow))) =
        Prod.fst from rfl]
    rw [hdf, List.map_cons, resampleWith_cons, resampleCore_map_fst]
    rw [getLastD_map]
  have h6 : ∀ hd tl,
      rows.filter (fun p => decide (start_date ≤ p.1)) = hd :: tl →
      ∀ l, bucketOf g l = l → bucketOf g hd.1 ≤ l →
        l ≤ bucketOf g ((tl.getLastD hd).1) →
        (∀ p, p ∈ rows → start_date ≤ p.1 → bucketOf g p.1 ≠ l) →
        ({ date := l, close := none, symbol := symbol } : SRow) ∈
          (MainSt.fetch_and_resample_data symbol start_date g (.ok rows)).1 := by
    intro hd tl hdf l hfix hlo hhi hempty
    have hlmem : l ∈ ((MainSt.fetch_and_resample_data symbol start_date g
        (.ok rows)).1).map (fun r => r.date) := by
      rw [h5 hd tl hdf]
      exact mem_bucketLabels.2 ⟨hlo, hhi, hfix⟩
    rw [List.mem_map] at hlmem
    obtain ⟨r, hr, hrl⟩ := hlmem
    have hclose : r.close = none := h4 r hr (by rw [hrl]; exact hempty)
    have hsym : r.symbol = symbol := MainSt.fetch_symbol_tag hr
    have hreq : r = { date := l, close := none, symbol := symbol } := by
      obtain ⟨d, c, s2⟩ := r
      dsimp only at hrl hclose hsym
      rw [hrl, hclose, hsym]
    rw [← hreq]
    exact hr
  exact ⟨h1, fun r hr => ⟨h2 r hr, h3 r hr, h4 r hr⟩, h5, h6⟩

/-- Witness for C1 amended at the concrete weekly input of the
counterexample. -/
theorem C1_witness :
    (StockChart.Granularity.Week ≠ StockChart.Granularity.Day) ∧
    ((((MainSt.fetch_and_resample_data "GOOGL" 0 .Week
        (.ok [(3, 1), (17, 2)])).1).map (fun r => r.date)).Pairwise (· < ·) ∧
    (∀ r, r ∈ (MainSt.fetch_and_resample_data "GOOGL" 0 .Week
        (.ok [(3, 1), (17, 2)])).1 →
      (r.close = ((([((3 : Nat), (1 : ℚ)), (17, 2)].filter
          (fun p => decide (0 ≤ p.1))).filter
          (fun p => bucketOf .Week p.1 == r.date)).getLast?).map
            (fun p => p.2) ∧
      (∀ q, r.close = some q →
        ∃ p, p ∈ [((3 : Nat), (1 : ℚ)), (17, 2)] ∧ 0 ≤ p.1 ∧
          bucketOf .Week p.1 = r.date ∧ p.2 = q) ∧
      ((∀ p, p ∈ [((3 : Nat), (1 : ℚ)), (17, 2)] → 0 ≤ p.1 →
          bucketOf .Week p.1 ≠ r.date) →
        r.close = none))) ∧
    (∀ hd tl, [((3 : Nat), (1 : ℚ)), (17, 2)].filter
        (fun p => decide (0 ≤ p.1)) = hd :: tl →
      (((MainSt.fetch_and_resample_data "GOOGL" 0 .Week
        (.ok [(3, 1), (17, 2)])).1).map (fun r => r.date)) =
      bucketLabels (bucketOf .Week) (bucketOf .Week hd.1)
        (bucketOf .Week ((tl.getLastD hd).1))) ∧
    (∀ hd tl, [((3 : Nat), (1 : ℚ)), (17, 2)].filter
        (fun p => decide (0 ≤ p.1)) = hd :: tl →
      ∀ l, bucketOf .Week l = l → bucketOf .Week hd.1 ≤ l →
        l ≤ bucketOf .Week ((tl.getLastD hd).1) →
        (∀ p, p ∈ [((3 : Nat), (1 : ℚ)), (17, 2)] → 0 ≤ p.1 →
          bucketOf .Week p.1 ≠ l) →
        ({ date := l, close := none, symbol := "GOOGL" } : SRow) ∈
          (MainSt.fetch_and_resample_data "GOOGL" 0 .Week
            (.ok [(3, 1), (17, 2)])).1)) :=
  ⟨by decide,
   C1_amended_bucket_shape "GOOGL" 0 .Week [(3, 1), (17, 2)] (by decide)⟩

/-- C4 counterexample: upstream history [(4, 5)] (one trading day,
Monday 1970-01-05), start 0, end 9.  The trading day 4 lies inside
[0, 9], so the resampling of the history restricted to [0, 9] is the
one-point weekly series [(10, some 5)]; but the pipeline applies the end
bound after resampling, to the bucket label 10, and returns the empty
series instead — the end bound does not act on the underlying
trading-day dates. -/
theorem C4_counterexample :
    MainSt.combined_df
        ((MainSt.fetch_and_resample_data "GOOGL" 0 .Week (.ok [(4, 5)])).1)
        [] [] 0 9 = [] ∧
    resampleWith weekEnd
        (([((4 : Nat), (5 : ℚ))].filter
          (fun r => decide (0 ≤ r.1) && decide (r.1 ≤ 9))).map
          (fun r => (r.1, some r.2))) = [(10, some 5)] := by
  constructor
  · rfl
  · rfl

/-- C4 amended: the daily rows are filtered to date at or after start
before resampling, but the end bound is applied only afterwards — the
combined frame is the concatenation of the per-symbol resampled series
filtered by start and end on the resampled points' bucket labels, so a
point whose underlying trading days lie within [start, end] but whose
bucket label exceeds end is dropped. -/
theorem C4_amended_end_bound_on_labels (dfg dfn dft : List SRow)
    (start_d end_d : Nat) (symbol : String) (rows : List (Nat × ℚ)) :
    MainSt.combined_df dfg dfn dft start_d end_d =
      (dfg ++ dfn ++ dft).filter
        (fun r => decide (start_d ≤ r.date) && decide (r.date ≤ end_d)) ∧
    (MainSt.fetch_and_resample_data symbol start_d .Week (.ok rows)).1 =
      (resampleWith weekEnd
        ((rows.filter (fun r => decide (start_d ≤ r.1))).map
          (fun r => (r.1, some r.2)))).map
        (fun p => { date := p.1, close := p.2, symbol := symbol }) := by
  constructor
  · unfold MainSt.combined_df
    rw [MainSt.combine_eq_append]
    by_cases hc : (dfg ++ dfn ++ dft).isEmpty
    · rw [if_pos hc, List.isEmpty_iff.1 hc]
      rfl
    · rw [if_neg hc]
  · exact MainSt.fetch_resample_eq symbol start_d .Week (by simp) rows

/-- How many entries of `range n` are at least `k`. -/
theorem countP_range_ge (n k : Nat) :
    (List.range n).countP (fun i => decide (k ≤ i)) = n - k := by
  induction n with
  | zero => simp
  | succ m ih =>
    rw [List.range_succ, List.countP_append, ih]
    by_cases h : k ≤ m
    · rw [List.countP_cons_of_pos _ _ (by simpa using h)]
      simp only [List.countP_nil]
      omega
    · rw [List.countP_cons_of_neg _ _ (by simpa using h)]
      simp only [List.countP_nil]
      omega

/-- On an input with no missing values, the 200-window rolling mean is
none below index 199 and the mean of the trailing 200 values from index
199 on. -/
theorem rollingMean_map_some (qs : List ℚ) :
    rollingMean 200 (qs.map some) = (List.range qs.length).map (fun i =>
      if i + 1 < 200 then none
      else some (((qs.drop (i - 199)).take 200).sum / (200 : ℚ))) := by
  unfold rollingMean
  rw [List.length_map]
  refine List.map_congr_left ?_
  intro i hi
  rw [List.mem_range] at hi
  by_cases hbr : i + 1 < 200
  · rw [if_pos hbr, if_pos hbr]
  · rw [if_neg hbr, if_neg hbr]
    have hwin : ((qs.map some).take (i + 1)).drop (i + 1 - 200) =
        ((qs.drop (i - 199)).take 200).map some := by
      rw [← List.map_take, ← List.map_drop]
      have h1 : i + 1 - (i + 1 - 200) = 200 := by omega
      have h2 : i + 1 - 200 = i - 199 := by omega
      rw [List.drop_take, h1, h2]
    rw [hwin]
    have hall : (((qs.drop (i - 199)).take 200).map some).all
        (fun o => o.isSome) = true := by
      rw [List.all_eq_true]
      intro x hx
      rw [List.mem_map] at hx
      obtain ⟨y, hy, rfl⟩ := hx
      rfl
    rw [if_pos hall]
    rw [List.filterMap_map]
    have hfm : ((fun o : Option ℚ => o) ∘ some) = some := rfl
    rw [hfm, List.filterMap_some]
    norm_num

/-- C6: on a daily series — the Close values of one symbol inside the
combined frame, all present — the 200-window moving average is absent at
every index below 199, equals the arithmetic mean of the 200 trailing
closes (indices i-199 through i) at every index from 199 on, has exactly
max(0, length - 199) present values (Nat subtraction), and the pipeline
computes the MA200 columns only when the selected granularity is Day. -/
theorem C6_moving_average (c : List SRow) (s : String) (qs : List ℚ)
    (hq : (c.filter (fun r => r.symbol == s)).map (fun r => r.close) =
      qs.map some) :
    (MainSt.MA200 c s).length = qs.length ∧
    (∀ i, i < qs.length → i < 199 → (MainSt.MA200 c s)[i]? = some none) ∧
    (∀ i, 199 ≤ i → i < qs.length →
      (MainSt.MA200 c s)[i]? =
        some (some (((qs.drop (i - 199)).take 200).sum / (200 : ℚ)))) ∧
    (MainSt.MA200 c s).countP (fun o => o.isSome) = qs.length - 199 ∧
    (∀ show_ma g c2, MainSt.applyMA show_ma g c2 ≠ none →
      g = StockChart.Granularity.Day) := by
  have hma : MainSt.MA200 c s = rollingMean 200 (qs.map some) := by
    unfold MainSt.MA200
    rw [hq]
  rw [hma, rollingMean_map_some]
  refine ⟨?_, ?_, ?_, ?_, ?_⟩
  · rw [List.length_map, List.length_range]
  · intro i hilen hi199
    rw [List.getElem?_map, List.getElem?_range hilen]
    simp only [Option.map_some']
    rw [if_pos (by omega)]
  · intro i hi199 hilen
    rw [List.getElem?_map, List.getElem?_range hilen]
    simp only [Option.map_some']
    rw [if_neg (by omega)]
  · rw [List.countP_map]
    have hcong : ∀ x ∈ List.range qs.length,
        (((fun o : Option ℚ => o.isSome) ∘ (fun i =>
          if i + 1 < 200 then none
          else some (((qs.drop (i - 199)).take 200).sum / (200 : ℚ)))) x =
          true) ↔ (decide (199 ≤ x) = true) := by
      intro x hx
      by_cases hbr : x + 1 < 200
      · simp only [Function.comp, if_pos hbr, Option.isSome_none,
          Bool.false_eq_true, false_iff, decide_eq_true_eq]
        omega
      · simp only [Function.comp, if_neg hbr, Option.isSome_some,
          true_iff, decide_eq_true_eq]
        omega
    rw [List.countP_congr hcong, countP_range_ge]
  · intro show_ma g c2 hne
    unfold MainSt.applyMA at hne
    by_cases hcond : (show_ma && g == StockChart.Granularity.Day &&
        !c2.isEmpty) = true
    · have := hcond
      simp only [Bool.and_eq_true, beq_iff_eq] at this
      exact this.1.2
    · rw [if_neg hcond] at hne
      exact absurd rfl hne

/-- Witness for C6 at a concrete two-row frame (too short for any
present moving-average value, matching max(0, 2 - 199) = 0). -/
theorem C6_witness :
    ((([{ date := 0, close := some 1, symbol := "GOOGL" },
       { date := 1, close := some 2, symbol := "GOOGL" }] : List SRow).filter
        (fun r => r.symbol == "GOOGL")).map (fun r => r.close) =
      ([(1 : ℚ), 2]).map some) ∧
    ((MainSt.MA200 [{ date := 0, close := some 1, symbol := "GOOGL" },
       { date := 1, close := some 2, symbol := "GOOGL" }] "GOOGL").length =
      ([(1 : ℚ), 2]).length ∧
    (∀ i, i < ([(1 : ℚ), 2]).length → i < 199 →
      (MainSt.MA200 [{ date := 0, close := some 1, symbol := "GOOGL" },
        { date := 1, close := some 2, symbol := "GOOGL" }] "GOOGL")[i]? =
        some none) ∧
    (∀ i, 199 ≤ i → i < ([(1 : ℚ), 2]).length →
      (MainSt.MA200 [{ date := 0, close := some 1, symbol := "GOOGL" },
        { date := 1, close := some 2, symbol := "GOOGL" }] "GOOGL")[i]? =
        some (some (((([(1 : ℚ), 2]).drop (i - 199)).take 200).sum /
          (200 : ℚ)))) ∧
    (MainSt.MA200 [{ date := 0, close := some 1, symbol := "GOOGL" },
      { date := 1, close := some 2, symbol := "GOOGL" }] "GOOGL").countP
        (fun o => o.isSome) = ([(1 : ℚ), 2]).length - 199 ∧
    (∀ show_ma g c2, MainSt.applyMA show_ma g c2 ≠ none →
      g = StockChart.Granularity.Day)) :=
  ⟨by decide,
   C6_moving_average
     [{ date := 0, close := some 1, symbol := "GOOGL" },
      { date := 1, close := some 2, symbol := "GOOGL" }] "GOOGL"
     [(1 : ℚ), 2] (by decide)⟩

end StockChart
